import Mathlib

/-!
# Verification of the command/reminder orchestration core

A shallow embedding of the command dispatch, confirmation-gate, macro-runner
and reminder-scheduler logic of the bot (files `app/commands.py`,
`app/handlers.py`, `app/db.py`, `app/scheduler.py`), together with theorems
settling the specification claims about them.

Modelling conventions:
* Python values appearing in `params` mappings are modelled by `PyVal`
  (integers, strings, lists), parameter dicts by association lists.
* Python exceptions are modelled with `Except String`: a handler returning
  `.error e` models an uncaught `raise` with message `e`; `.ok s` models a
  normal `return s`.
* OS interaction (`subprocess`, `pyautogui`, message delivery) is modelled by
  an oracle `Env` fixing the outcome of each external call, and by an explicit
  list of emitted side effects (`SideEff`).
* `str.lower()` is modelled for the Basic Latin and Cyrillic ranges (the only
  scripts occurring in the affirmative vocabulary), `str.strip()` by trimming
  whitespace characters from both ends, and floor division `//` by `Int.fdiv`.
-/

/-- A Python value as it occurs in intent `params` dictionaries. -/
inductive PyVal where
  | int (n : Int)
  | str (s : String)
  | list (xs : List PyVal)

mutual

/-- `repr` of a Python value (used by f-string interpolation of containers). -/
def pyRepr : PyVal → String
  | .int n => toString n
  | .str s => "'" ++ s ++ "'"
  | .list xs => "[" ++ String.intercalate ", " (pyReprList xs) ++ "]"

/-- `repr` of each element of a Python list. -/
def pyReprList : List PyVal → List String
  | [] => []
  | x :: rest => pyRepr x :: pyReprList rest

end

/-- `str()` of a Python value, as used by f-string interpolation. -/
def pyStr : PyVal → String
  | .str s => s
  | v => pyRepr v

/-- Python truthiness of a value (`if not x`). -/
def pyTruthy : PyVal → Bool
  | .int n => n != 0
  | .str s => s != ""
  | .list xs => !xs.isEmpty

/-- A `params` dictionary: association list from key to value. -/
abbrev Params := List (String × PyVal)

/-- `params.get(k)` (first binding wins; registry dicts have unique keys). -/
def Params.get (p : Params) (k : String) : Option PyVal :=
  List.lookup k p

/-- `params.get(k, d)`. -/
def Params.getD (p : Params) (k : String) (d : PyVal) : PyVal :=
  (p.get k).getD d

/-- `str()` of a params dict, as interpolated into the confirmation prompt. -/
def pyStrParams (p : Params) : String :=
  "\x7b" ++ String.intercalate ", " (p.map (fun kv => "'" ++ kv.1 ++ "': " ++ pyRepr kv.2)) ++ "\x7d"

/-- `str.lower()` for one character, on the Basic Latin and Cyrillic ranges
(identity elsewhere; the affirmative vocabulary only uses these ranges). -/
def pyLowerChar (c : Char) : Char :=
  if 65 ≤ c.toNat ∧ c.toNat ≤ 90 then Char.ofNat (c.toNat + 32)
  else if 0x410 ≤ c.toNat ∧ c.toNat ≤ 0x42F then Char.ofNat (c.toNat + 32)
  else if 0x400 ≤ c.toNat ∧ c.toNat ≤ 0x40F then Char.ofNat (c.toNat + 80)
  else c

/-- `str.lower()`. -/
def pyLower (s : String) : String := ⟨s.data.map pyLowerChar⟩

/-- `str.strip()`: drop whitespace from both ends. -/
def pyStrip (s : String) : String :=
  ⟨((s.data.dropWhile Char.isWhitespace).reverse.dropWhile Char.isWhitespace).reverse⟩

/-- `str.endswith(post)`. -/
def pyEndsWith (s post : String) : Bool := post.data.isSuffixOf s.data

/-- Oracle fixing the outcome of every external (OS / network) call. -/
structure Env where
  /-- `subprocess.run(args).returncode`. -/
  runReturncode : List String → Int
  /-- `subprocess.run(args).stderr`. -/
  runStderr : List String → String
  /-- error message when `subprocess.Popen(name, shell=True)` raises. -/
  popenError : String → Option String
  /-- error message when `os.startfile(url)` raises. -/
  startfileError : String → Option String
  /-- error message when the `clip` subprocess call raises. -/
  clipError : Option String
  /-- error message when `pyautogui.hotkey(*keys)` raises. -/
  hotkeyError : List String → Option String
  /-- whether the module-level `_bot` of `scheduler.py` is set. -/
  botPresent : Bool
  /-- error message when `bot.send_message(user, text)` raises. -/
  sendError : Int → String → Option String

/-- A side effect emitted by a command executor. -/
inductive SideEff where
  | run (args : List String)
  | popen (cmd : String)
  | press (key : String)
  | hotkeyKeys (keys : List String)
  | clip (text : String)
  | startfile (url : String)

/-- Result of a Python command handler: the side effects it performed and
either its return value (`.ok`) or the uncaught exception it raised
(`.error`). -/
abbrev HRes := List SideEff × Except String String

/-- The type of the command dispatcher as seen by a handler that re-enters it
(`cmd_run_macro`): possibly-raising, returning outcome text and effects. -/
abbrev DispatchE := String → Params → Env → Except String (String × List SideEff)

/-! ## Command handlers (`app/commands.py`) -/

/-- `DANGEROUS_INTENTS` (`commands.py`). -/
def DANGEROUS_INTENTS : List String := ["shutdown", "restart", "hibernate"]

/-- `cmd_shutdown`. -/
def cmd_shutdown (params : Params) (_env : Env) : HRes :=
  let delay := params.getD "delay_seconds" (.int 60)
  let d := pyStr delay
  ([.run ["shutdown", "/s", "/t", d]], .ok s!"⏻ Выключение через {d} сек.")

/-- `cmd_restart`. -/
def cmd_restart (_params : Params) (_env : Env) : HRes :=
  ([.run ["shutdown", "/r", "/t", "5"]], .ok "🔄 Перезагрузка через 5 сек.")

/-- `cmd_cancel_shutdown`. -/
def cmd_cancel_shutdown (_params : Params) (_env : Env) : HRes :=
  ([.run ["shutdown", "/a"]], .ok "🚫 Выключение/перезагрузка отменены.")

/-- `cmd_sleep`. -/
def cmd_sleep (_params : Params) (_env : Env) : HRes :=
  ([.run ["rundll32.exe", "powrprof.dll,SetSuspendState", "0", "1", "0"]],
   .ok "😴 ПК уходит в сон.")

/-- `cmd_lock`. -/
def cmd_lock (_params : Params) (_env : Env) : HRes :=
  ([.run ["rundll32.exe", "user32.dll,LockWorkStation"]], .ok "🔒 Экран заблокирован.")

/-- `cmd_hibernate`. -/
def cmd_hibernate (_params : Params) (_env : Env) : HRes :=
  ([.run ["shutdown", "/h"]], .ok "❄️ Гибернация.")

/-- `cmd_open_app`.  A non-string truthy `name` makes `subprocess.Popen`
raise inside the handler's `try`, yielding the failure return. -/
def cmd_open_app (params : Params) (env : Env) : HRes :=
  match params.getD "name" (.str "") with
  | .str name =>
    if name = "" then ([], .ok "❌ Не указано имя приложения.")
    else
      match env.popenError name with
      | none => ([.popen name], .ok s!"🚀 Открываю {name}.")
      | some e => ([], .ok s!"❌ Не удалось открыть {name}: {e}")
  | v =>
    if pyTruthy v then ([], .ok ("❌ Не удалось открыть " ++ pyStr v ++ ": TypeError"))
    else ([], .ok "❌ Не указано имя приложения.")

/-- `cmd_close_app`.  A non-string truthy `name` raises `AttributeError` at
`name.endswith`, outside any `try`, so the exception escapes the handler. -/
def cmd_close_app (params : Params) (env : Env) : HRes :=
  match params.getD "name" (.str "") with
  | .str name =>
    if name = "" then ([], .ok "❌ Не указано имя приложения.")
    else
      let procName := if pyEndsWith name ".exe" then name else name ++ ".exe"
      let args := ["taskkill", "/IM", procName, "/F"]
      if env.runReturncode args = 0 then
        ([.run args], .ok s!"💀 Процесс {procName} завершён.")
      else
        let errText := pyStrip (env.runStderr args)
        ([.run args], .ok s!"❌ Не удалось завершить {procName}: {errText}")
  | v =>
    if pyTruthy v then ([], .error "AttributeError")
    else ([], .ok "❌ Не указано имя приложения.")

/-- `cmd_volume_up`.  A non-integer `percent` raises `TypeError` at `// 2`,
outside any `try`. -/
def cmd_volume_up (params : Params) (_env : Env) : HRes :=
  match params.getD "percent" (.int 10) with
  | .int n =>
    let steps := max 1 (n.fdiv 2)
    let pct := steps * 2
    (List.replicate steps.toNat (.press "volumeup"), .ok s!"🔊 Громкость +{pct}%.")
  | _ => ([], .error "TypeError")

/-- `cmd_volume_down`. -/
def cmd_volume_down (params : Params) (_env : Env) : HRes :=
  match params.getD "percent" (.int 10) with
  | .int n =>
    let steps := max 1 (n.fdiv 2)
    let pct := steps * 2
    (List.replicate steps.toNat (.press "volumedown"), .ok s!"🔉 Громкость -{pct}%.")
  | _ => ([], .error "TypeError")

/-- `cmd_volume_mute`. -/
def cmd_volume_mute (_params : Params) (_env : Env) : HRes :=
  ([.press "volumemute"], .ok "🔇 Звук переключён (mute/unmute).")

/-- `cmd_media_play_pause`. -/
def cmd_media_play_pause (_params : Params) (_env : Env) : HRes :=
  ([.press "playpause"], .ok "⏯ Play/Pause.")

/-- `cmd_media_next`. -/
def cmd_media_next (_params : Params) (_env : Env) : HRes :=
  ([.press "nexttrack"], .ok "⏭ Следующий трек.")

/-- `cmd_media_prev`. -/
def cmd_media_prev (_params : Params) (_env : Env) : HRes :=
  ([.press "prevtrack"], .ok "⏮ Предыдущий трек.")

/-- `cmd_screenshot`: returns the sentinel outcome string. -/
def cmd_screenshot (_params : Params) (_env : Env) : HRes :=
  ([], .ok "SCREENSHOT_REQUESTED")

/-- `cmd_type_text`. -/
def cmd_type_text (params : Params) (env : Env) : HRes :=
  match params.getD "text" (.str "") with
  | .str text =>
    if text = "" then ([], .ok "❌ Не указан текст для ввода.")
    else
      match env.clipError with
      | some e => ([], .ok s!"❌ Ошибка ввода текста: {e}")
      | none =>
        let shown : String := ⟨text.data.take 50⟩
        let dots := if text.data.length > 50 then "..." else ""
        ([.clip text, .hotkeyKeys ["ctrl", "v"]], .ok s!"⌨️ Текст введён: {shown}{dots}")
  | v =>
    if pyTruthy v then ([], .ok "❌ Ошибка ввода текста: AttributeError")
    else ([], .ok "❌ Не указан текст для ввода.")

/-- `cmd_open_url`. -/
def cmd_open_url (params : Params) (env : Env) : HRes :=
  match params.getD "url" (.str "") with
  | .str url =>
    if url = "" then ([], .ok "❌ Не указан URL.")
    else
      match env.startfileError url with
      | none => ([.startfile url], .ok s!"🌐 Открываю {url}")
      | some e => ([], .ok s!"❌ Не удалось открыть URL: {e}")
  | v =>
    if pyTruthy v then ([], .ok "❌ Не удалось открыть URL: TypeError")
    else ([], .ok "❌ Не указан URL.")

/-- Extract a list of strings from a Python list value, if all elements are
strings (otherwise `' + '.join` / `pyautogui.hotkey` raise). -/
def allStrings : List PyVal → Option (List String)
  | [] => some []
  | .str s :: rest => (allStrings rest).map (fun xs => s :: xs)
  | _ :: _ => none

/-- `cmd_hotkey`. -/
def cmd_hotkey (params : Params) (env : Env) : HRes :=
  match params.getD "keys" (.list []) with
  | .list keys =>
    if keys.isEmpty then ([], .ok "❌ Не указаны клавиши.")
    else
      match allStrings keys with
      | some strs =>
        match env.hotkeyError strs with
        | none =>
          ([.hotkeyKeys strs], .ok ("⌨️ Нажато: " ++ String.intercalate " + " strs))
        | some e => ([], .ok s!"❌ Ошибка: {e}")
      | none => ([], .ok "❌ Ошибка: TypeError")
  | v =>
    if pyTruthy v then ([], .ok "❌ Ошибка: TypeError")
    else ([], .ok "❌ Не указаны клавиши.")

/-! ## Macro registry and macro runner (`app/commands.py`) -/

/-- One step of a macro definition. -/
structure Step where
  intent : String
  params : Params

/-- A macro definition: label and ordered steps. -/
structure MacroDef where
  label : String
  steps : List Step

/-- `MACRO_REGISTRY` (`commands.py`), static. -/
def MACRO_REGISTRY : List (String × MacroDef) :=
  [("start_work",
    ⟨"Начать рабочий день",
     [⟨"open_app", [("name", .str "telegram")]⟩,
      ⟨"open_url", [("url", .str "https://mail.google.com")]⟩,
      ⟨"open_app", [("name", .str "code")]⟩]⟩),
   ("end_work",
    ⟨"Закончить рабочий день",
     [⟨"close_app", [("name", .str "code")]⟩,
      ⟨"lock", []⟩]⟩),
   ("music_mode",
    ⟨"Режим музыки",
     [⟨"open_url", [("url", .str "https://music.youtube.com")]⟩,
      ⟨"volume_up", [("percent", .int 50)]⟩]⟩),
   ("focus_mode",
    ⟨"Режим фокуса",
     [⟨"volume_mute", []⟩,
      ⟨"close_app", [("name", .str "telegram")]⟩]⟩),
   ("presentation",
    ⟨"Режим презентации",
     [⟨"volume_up", [("percent", .int 70)]⟩,
      ⟨"hotkey", [("keys", .list [.str "win", .str "p"])]⟩]⟩)]

/-- One iteration of the step loop of `execute_macro`: call the dispatcher
inside `try`, prefix a success line with `✅`, or catch an escaping exception
into a `❌` line.  Returns the report line and the effects performed. -/
def macroStepLine (dispatch : DispatchE) (env : Env) (step : Step) : String × List SideEff :=
  match dispatch step.intent step.params env with
  | .ok (result, effs) => ("✅ " ++ result, effs)
  | .error e => ("❌ " ++ step.intent ++ ": " ++ e, [])

/-- The step loop of `execute_macro`, in declaration order. -/
def macroStepLines (dispatch : DispatchE) (env : Env) : List Step → List (String × List SideEff)
  | [] => []
  | step :: rest => macroStepLine dispatch env step :: macroStepLines dispatch env rest

/-- `execute_macro`, generic over the dispatcher it re-enters. -/
def executeMacroWith (dispatch : DispatchE) (mName : String) (env : Env) :
    String × List SideEff :=
  match MACRO_REGISTRY.lookup mName with
  | none => ("❌ Неизвестный макрос: " ++ mName, [])
  | some mac =>
    let lines := macroStepLines dispatch env mac.steps
    let results := lines.map Prod.fst
    let stepsText := String.intercalate "\n" (results.map (fun r => "  • " ++ r))
    ("🔗 Макрос «" ++ mac.label ++ "»:\n" ++ stepsText, (lines.map Prod.snd).flatten)

/-- `cmd_run_macro`, generic over the dispatcher it re-enters. -/
def cmdRunMacro (dispatch : DispatchE) (params : Params) (env : Env) : HRes :=
  match params.getD "macro" (.str "") with
  | .str mName =>
    if mName = "" then ([], .ok "❌ Не указан макрос.")
    else
      let r := executeMacroWith dispatch mName env
      (r.2, .ok r.1)
  | v =>
    if pyTruthy v then ([], .ok ("❌ Неизвестный макрос: " ++ pyStr v))
    else ([], .ok "❌ Не указан макрос.")

/-- `cmd_list_macros`. -/
def cmd_list_macros (_params : Params) (_env : Env) : HRes :=
  let lines := "📋 Доступные макросы:\n" ::
    MACRO_REGISTRY.map (fun kv =>
      let n := kv.2.steps.length
      "• " ++ kv.2.label ++ " (" ++ kv.1 ++ ") — " ++ toString n ++ " шагов")
  ([], .ok (String.intercalate "\n" lines))

/-! ## Command registry and dispatcher (`app/commands.py`) -/

/-- An entry of `COMMAND_REGISTRY`: the handler closure (parametrised by the
dispatcher for re-entrant handlers) and the human label. -/
structure RegEntry where
  handler : DispatchE → Params → Env → HRes
  label : String

/-- `COMMAND_REGISTRY` (`commands.py`), static. -/
def COMMAND_REGISTRY : List (String × RegEntry) :=
  [("shutdown",         ⟨fun _ => cmd_shutdown,         "Выключение ПК"⟩),
   ("restart",          ⟨fun _ => cmd_restart,          "Перезагрузка"⟩),
   ("cancel_shutdown",  ⟨fun _ => cmd_cancel_shutdown,  "Отмена выключения"⟩),
   ("sleep",            ⟨fun _ => cmd_sleep,            "Сон"⟩),
   ("lock",             ⟨fun _ => cmd_lock,             "Блокировка"⟩),
   ("hibernate",        ⟨fun _ => cmd_hibernate,        "Гибернация"⟩),
   ("open_app",         ⟨fun _ => cmd_open_app,         "Открытие приложения"⟩),
   ("close_app",        ⟨fun _ => cmd_close_app,        "Закрытие приложения"⟩),
   ("volume_up",        ⟨fun _ => cmd_volume_up,        "Громкость +"⟩),
   ("volume_down",      ⟨fun _ => cmd_volume_down,      "Громкость -"⟩),
   ("volume_mute",      ⟨fun _ => cmd_volume_mute,      "Mute"⟩),
   ("media_play_pause", ⟨fun _ => cmd_media_play_pause, "Play/Pause"⟩),
   ("media_next",       ⟨fun _ => cmd_media_next,       "Следующий трек"⟩),
   ("media_prev",       ⟨fun _ => cmd_media_prev,       "Предыдущий трек"⟩),
   ("screenshot",       ⟨fun _ => cmd_screenshot,       "Скриншот"⟩),
   ("type_text",        ⟨fun _ => cmd_type_text,        "Ввод текста"⟩),
   ("open_url",         ⟨fun _ => cmd_open_url,         "Открытие URL"⟩),
   ("hotkey",           ⟨fun _ => cmd_hotkey,           "Горячие клавиши"⟩),
   ("run_macro",        ⟨cmdRunMacro,                   "Запуск макроса"⟩),
   ("list_macros",      ⟨fun _ => cmd_list_macros,      "Список макросов"⟩)]

/-- The intent names present in the command registry. -/
def registryKeys : List String := COMMAND_REGISTRY.map Prod.fst

/-- The body of `execute_command` given the dispatcher `sub` passed to
re-entrant handlers: registry lookup, invocation, and the catch-all that
converts a handler exception into a user-facing failure string.  Every
branch returns normally (`.ok`): no exception escapes this boundary. -/
def dispatchCore (sub : DispatchE) (intent : String) (params : Params) (env : Env) :
    Except String (String × List SideEff) :=
  match COMMAND_REGISTRY.lookup intent with
  | none => .ok ("❌ Неизвестная команда: " ++ intent, [])
  | some entry =>
    match entry.handler sub params env with
    | (effs, .ok s) => .ok (s, effs)
    | (effs, .error e) => .ok ("❌ Ошибка выполнения " ++ intent ++ ": " ++ e, effs)

/-- `execute_command`, with `fuel` bounding the recursion depth through
`cmd_run_macro` (at depth 0 a further re-entry models Python's
`RecursionError`; the static registry never recurses, so any positive fuel
gives the program's behaviour). -/
def executeCommand : Nat → String → Params → Env → Except String (String × List SideEff)
  | 0, intent, params, env =>
    dispatchCore (fun _ _ _ => .error "maximum recursion depth exceeded") intent params env
  | fuel + 1, intent, params, env =>
    dispatchCore (fun i p e => executeCommand fuel i p e) intent params env

/-- `execute_macro` at module level: steps dispatch through `execute_command`. -/
def executeMacro (fuel : Nat) (mName : String) (env : Env) : String × List SideEff :=
  executeMacroWith (fun i p e => executeCommand fuel i p e) mName env

/-! ## Telegram handlers and confirmation gate (`app/handlers.py`) -/

/-- A parsed intent descriptor `{intent, params}` as stored by the gate. -/
structure IntentData where
  intent : String
  params : Params

/-- The `pending_confirmations` dict: per-operator pending descriptor. -/
abbrev GateState := Int → Option IntentData

/-- The empty `pending_confirmations` dict. -/
def emptyGate : GateState := fun _ => none

/-- `pending_confirmations[uid] = d`. -/
def setPending (st : GateState) (uid : Int) (d : IntentData) : GateState :=
  fun u => if u = uid then some d else st u

/-- `pending_confirmations.pop(uid)`: the state after removal. -/
def removePending (st : GateState) (uid : Int) : GateState :=
  fun u => if u = uid then none else st u

/-- An operator-visible effect of a message handler. -/
inductive HEff where
  /-- `status_msg.edit_text(s)`. -/
  | editStatus (s : String)
  /-- `message.answer(s)`. -/
  | answer (s : String)
  /-- `message.answer_document(...)` (screenshot delivery). -/
  | answerDocument
  /-- invocation of `commands.execute_command(intent, params)`. -/
  | execute (intent : String) (params : Params)
  /-- an exception escaping the handler (no terminal reply). -/
  | raised (e : String)

/-- Whether an effect is an invocation of the command executor. -/
def HEff.isExecute : HEff → Prop
  | .execute _ _ => True
  | _ => False

instance : DecidablePred HEff.isExecute := fun e => by
  cases e <;> simp [HEff.isExecute] <;> infer_instance

/-- The affirmative vocabulary of `handle_text`. -/
def AFFIRMATIVE : List String := ["да", "yes", "ок", "ok", "подтверждаю", "давай"]

/-- The confirmation prompt shown when a dangerous intent is intercepted. -/
def dangerPrompt (d : IntentData) : String :=
  let label := ((COMMAND_REGISTRY.lookup d.intent).map RegEntry.label).getD d.intent
  "⚠️ " ++ label ++ "\nПараметры: " ++ pyStrParams d.params ++
    "\n\nОтправь 'да' для подтверждения или 'нет' для отмены."

/-- `handle_command_voice` (`handlers.py`), from the point where the intent
resolver has produced `intentData` (`none` models a falsy/failed parse).
Returns the new gate state and the emitted effects, in order. -/
def handleCommandVoice (fuel : Nat) (env : Env) (uid : Int) (commandText : String)
    (intentData : Option IntentData) (st : GateState) : GateState × List HEff :=
  let parsing := HEff.editStatus ("🎯 Команда: " ++ commandText ++ "\n⏳ Разбираю...")
  match intentData with
  | none =>
    (st, [parsing, .editStatus ("🎯 Команда: " ++ commandText ++ "\n❌ Не удалось распознать.")])
  | some d =>
    if d.intent = "unknown" then
      (st, [parsing, .editStatus ("🎯 Команда: " ++ commandText ++ "\n❌ Не удалось распознать.")])
    else if d.intent ∈ DANGEROUS_INTENTS then
      (setPending st uid d, [parsing, .editStatus (dangerPrompt d)])
    else if d.intent = "screenshot" then
      (st, [parsing, .editStatus "📸 Делаю скриншот...", .answerDocument,
            .editStatus "📸 Скриншот отправлен."])
    else
      match executeCommand fuel d.intent d.params env with
      | .ok (result, _) =>
        (st, [parsing, .execute d.intent d.params,
              .editStatus ("🎯 " ++ commandText ++ "\n" ++ result)])
      | .error e => (st, [parsing, .execute d.intent d.params, .raised e])

/-- `handle_text` (`handlers.py`): the confirmation-gate exit transition. -/
def handleText (fuel : Nat) (env : Env) (uid : Int) (text : String) (st : GateState) :
    GateState × List HEff :=
  let t := pyLower (pyStrip text)
  match st uid with
  | none => (st, [])
  | some d =>
    let st1 := removePending st uid
    if t ∈ AFFIRMATIVE then
      match executeCommand fuel d.intent d.params env with
      | .ok (result, _) =>
        (st1, [.execute d.intent d.params, .answer ("✅ " ++ result)])
      | .error e => (st1, [.execute d.intent d.params, .raised e])
    else
      (st1, [.answer "❌ Команда отменена."])

/-! ## Reminder store (`app/db.py`) and scheduler poll (`app/scheduler.py`) -/

/-- A row of the `reminders` table. -/
structure Reminder where
  id : Nat
  user_id : Int
  text : String
  remind_at : String
  created_at : String
  fired : Bool
deriving DecidableEq

/-- Lexicographic (code-point-wise) `≤` on character lists: how SQLite
compares two TEXT timestamps. -/
def tsLeL : List Char → List Char → Bool
  | [], _ => true
  | _ :: _, [] => false
  | a :: as, b :: bs =>
    if a.toNat < b.toNat then true
    else if b.toNat < a.toNat then false
    else tsLeL as bs

/-- The SQL comparison `a <= b` on stored TEXT timestamps. -/
def tsLe (a b : String) : Bool := tsLeL a.data b.data

theorem tsLeL_total : ∀ as bs : List Char, tsLeL as bs = true ∨ tsLeL bs as = true := by
  intro as
  induction as with
  | nil => intro bs; left; rfl
  | cons a as ih =>
    intro bs
    cases bs with
    | nil => right; rfl
    | cons b bs =>
      by_cases hab : a.toNat < b.toNat
      · left; simp [tsLeL, hab]
      · by_cases hba : b.toNat < a.toNat
        · right; simp [tsLeL, hba, hab]
        · rcases ih bs with h | h <;> [left; right] <;> simp [tsLeL, hab, hba, h]

theorem tsLeL_trans : ∀ as bs cs : List Char,
    tsLeL as bs = true → tsLeL bs cs = true → tsLeL as cs = true := by
  intro as
  induction as with
  | nil => intro bs cs _ _; rfl
  | cons a as ih =>
    intro bs cs h1 h2
    cases bs with
    | nil => simp [tsLeL] at h1
    | cons b bs =>
      cases cs with
      | nil => simp [tsLeL] at h2
      | cons c cs =>
        simp only [tsLeL] at h1 h2 ⊢
        split_ifs at h1 h2 ⊢ with hab hba hbc hcb hac hca <;> try rfl
        all_goals try omega
        all_goals try simp_all
        all_goals exact ih bs cs h1 h2

/-- The ORDER BY key of the due-reminder query. -/
def remindLe (a b : Reminder) : Prop := tsLe a.remind_at b.remind_at = true

instance : DecidableRel remindLe := fun a b =>
  inferInstanceAs (Decidable (tsLe a.remind_at b.remind_at = true))

instance : IsTotal Reminder remindLe := ⟨fun a b => tsLeL_total a.remind_at.data b.remind_at.data⟩

instance : IsTrans Reminder remindLe :=
  ⟨fun a b c h1 h2 => tsLeL_trans a.remind_at.data b.remind_at.data c.remind_at.data h1 h2⟩

/-- `get_pending_reminders` (`db.py`): rows with `fired = 0` and
`remind_at <= now`, ordered by `remind_at` ascending.  ISO-8601 timestamps
are compared as text, exactly as SQLite compares the stored values. -/
def get_pending_reminders (now : String) (tbl : List Reminder) : List Reminder :=
  List.insertionSort remindLe
    (tbl.filter (fun r => !r.fired && tsLe r.remind_at now))

/-- The row update performed by `mark_reminder_fired`. -/
def setFired (r : Reminder) : Reminder :=
  ⟨r.id, r.user_id, r.text, r.remind_at, r.created_at, true⟩

/-- `mark_reminder_fired` (`db.py`): `UPDATE reminders SET fired = 1 WHERE id = ?`. -/
def mark_reminder_fired (rid : Nat) (tbl : List Reminder) : List Reminder :=
  tbl.map (fun r => if r.id = rid then setFired r else r)

/-- A scheduler-poll effect on the notification channel. -/
inductive SchedEff where
  | sent (user : Int) (text : String)
  | sendFailed (user : Int) (text : String) (err : String)
deriving DecidableEq

/-- The reminder message text (the source file stores this prefix in a
mojibake encoding; reproduced byte-for-byte). -/
def reminderMessage (text : String) : String := "ðŸ”” ÐÐ°Ð¿Ð¾Ð¼Ð¸Ð½Ð°Ð½Ð¸Ðµ:\n" ++ text

/-- One iteration of the loop body of `check_reminders`: attempt delivery if
the bot is set, and mark the row fired unless `send_message` raised. -/
def processReminder (env : Env) (tbl : List Reminder) (r : Reminder) :
    List Reminder × List SchedEff :=
  if env.botPresent then
    match env.sendError r.user_id (reminderMessage r.text) with
    | none => (mark_reminder_fired r.id tbl, [.sent r.user_id (reminderMessage r.text)])
    | some e => (tbl, [.sendFailed r.user_id (reminderMessage r.text) e])
  else (mark_reminder_fired r.id tbl, [])

/-- The loop of `check_reminders` over the fetched pending list. -/
def processReminders (env : Env) : List Reminder → List Reminder → List Reminder × List SchedEff
  | [], tbl => (tbl, [])
  | r :: rest, tbl =>
    let p1 := processReminder env tbl r
    let p2 := processReminders env rest p1.1
    (p2.1, p1.2 ++ p2.2)

/-- `check_reminders` (`scheduler.py`): poll the store for due reminders and
process each in order. -/
def check_reminders (env : Env) (now : String) (tbl : List Reminder) :
    List Reminder × List SchedEff :=
  processReminders env (get_pending_reminders now tbl) tbl

/-- The delivery-attempt effect produced for one due reminder. -/
def attemptEff (env : Env) (r : Reminder) : SchedEff :=
  match env.sendError r.user_id (reminderMessage r.text) with
  | none => .sent r.user_id (reminderMessage r.text)
  | some e => .sendFailed r.user_id (reminderMessage r.text) e

/-! ## Concrete fixtures used by witnesses -/

/-- An environment where every external call succeeds. -/
def env0 : Env := ⟨fun _ => 0, fun _ => "", fun _ => none, fun _ => none,
  none, fun _ => none, true, fun _ _ => none⟩

/-- An environment where `taskkill` fails with stderr `boom`. -/
def envKillFail : Env := ⟨fun _ => 1, fun _ => "boom", fun _ => none, fun _ => none,
  none, fun _ => none, true, fun _ _ => none⟩

/-- A dangerous intent descriptor: shutdown with a 300 second delay. -/
def dShut : IntentData := ⟨"shutdown", [("delay_seconds", .int 300)]⟩

/-- A gate state where operator 1 has `dShut` pending. -/
def gate1 : GateState := setPending emptyGate 1 dShut

/-! ## Helper lemmas -/

theorem lookup_eq_none_of_not_mem_keys {α : Type} {l : List (String × α)} {k : String}
    (h : k ∉ l.map Prod.fst) : l.lookup k = none := by
  induction l with
  | nil => rfl
  | cons kv rest ih =>
    simp only [List.map_cons, List.mem_cons, not_or] at h
    have hk : (k == kv.1) = false := by
      simp only [beq_eq_false_iff_ne, ne_eq]
      exact fun he => h.1 he
    simp [List.lookup, hk, ih h.2]

theorem dispatchCore_isOk (sub : DispatchE) (intent : String) (params : Params)
    (env : Env) : ∃ out, dispatchCore sub intent params env = .ok out := by
  unfold dispatchCore
  cases COMMAND_REGISTRY.lookup intent with
  | none => exact ⟨_, rfl⟩
  | some entry =>
    rcases h : entry.handler sub params env with ⟨effs, res⟩
    cases res <;> simp [h]

theorem executeCommand_eq_dispatchCore (fuel : Nat) (intent : String) (params : Params)
    (env : Env) :
    ∃ sub, executeCommand fuel intent params env = dispatchCore sub intent params env := by
  cases fuel <;> exact ⟨_, rfl⟩

theorem executeCommand_isOk (fuel : Nat) (intent : String) (params : Params) (env : Env) :
    ∃ out, executeCommand fuel intent params env = .ok out := by
  obtain ⟨sub, hs⟩ := executeCommand_eq_dispatchCore fuel intent params env
  rw [hs]; exact dispatchCore_isOk sub intent params env


theorem executeCommand_unknown (fuel : Nat) (intent : String) (params : Params)
    (env : Env) (h : intent ∉ registryKeys) :
    executeCommand fuel intent params env =
      .ok ("❌ Неизвестная команда: " ++ intent, []) := by
  have hl : COMMAND_REGISTRY.lookup intent = none :=
    lookup_eq_none_of_not_mem_keys h
  obtain ⟨sub, hs⟩ := executeCommand_eq_dispatchCore fuel intent params env
  rw [hs]; unfold dispatchCore; rw [hl]

theorem macroStepLines_ok_marker (fuel : Nat) (env : Env) :
    ∀ steps : List Step,
      ∀ line ∈ (macroStepLines (fun i p e => executeCommand fuel i p e) env steps).map Prod.fst,
        "✅ ".data <+: line.data := by
  intro steps
  induction steps with
  | nil => intro line h; simp [macroStepLines] at h
  | cons step rest ih =>
    intro line h
    simp only [macroStepLines, List.map_cons, List.mem_cons] at h
    rcases h with h | h
    · obtain ⟨out, hout⟩ := executeCommand_isOk fuel step.intent step.params env
      subst h
      simp only [macroStepLine, hout]
      exact ⟨out.1.data, by simp [String.data_append]⟩
    · exact ih line h

theorem macroStepLines_getElem (dispatch : DispatchE) (env : Env) :
    ∀ (steps : List Step) (i : Nat),
      (macroStepLines dispatch env steps)[i]? =
        (steps[i]?).map (macroStepLine dispatch env) := by
  intro steps
  induction steps with
  | nil => intro i; simp [macroStepLines]
  | cons step rest ih =>
    intro i
    cases i with
    | zero => simp [macroStepLines]
    | succ j => simpa [macroStepLines] using ih j

theorem macroStepLines_length (dispatch : DispatchE) (env : Env) :
    ∀ steps : List Step, (macroStepLines dispatch env steps).length = steps.length := by
  intro steps
  induction steps with
  | nil => rfl
  | cons step rest ih => simp [macroStepLines, ih]

/-! ## Claim theorems: dispatcher and macro runner -/

/-- C8: for every intent name and params mapping, `execute_command` returns a
human-readable outcome string and never raises: an intent absent from the
registry yields the distinct unrecognized-command outcome; a handler that
returns normally has its string passed through; a handler that raises has the
exception caught at the dispatch boundary and converted into a user-facing
failure message (witnessed concretely by `close_app` with a non-string name,
whose `AttributeError` is converted, never propagated). -/
theorem c8_dispatch_never_raises :
    (∀ fuel intent params env, intent ∉ registryKeys →
      executeCommand fuel intent params env =
        .ok ("❌ Неизвестная команда: " ++ intent, [])) ∧
    (∀ (sub : DispatchE) intent entry params env effs,
      COMMAND_REGISTRY.lookup intent = some entry →
      (∀ s, entry.handler sub params env = (effs, .ok s) →
        dispatchCore sub intent params env = .ok (s, effs)) ∧
      (∀ e, entry.handler sub params env = (effs, .error e) →
        dispatchCore sub intent params env =
          .ok ("❌ Ошибка выполнения " ++ intent ++ ": " ++ e, effs))) ∧
    (∀ fuel intent params env, ∃ out, executeCommand fuel intent params env = .ok out) ∧
    (executeCommand 1 "close_app" [("name", PyVal.int 5)] env0 =
      .ok ("❌ Ошибка выполнения close_app: AttributeError", [])) := by
  refine ⟨executeCommand_unknown, ?_, executeCommand_isOk, rfl⟩
  intro sub intent entry params env effs hl
  constructor
  · intro s hh; simp [dispatchCore, hl, hh]
  · intro e hh; simp [dispatchCore, hl, hh]

/-- C8 witness: the unknown-intent branch at the concrete intent `frobnicate`. -/
theorem c8_witness :
    ("frobnicate" ∉ registryKeys) ∧
    (executeCommand 3 "frobnicate" [] env0 =
      .ok ("❌ Неизвестная команда: " ++ "frobnicate", [])) :=
  ⟨by decide, c8_dispatch_never_raises.1 3 "frobnicate" [] env0 (by decide)⟩

/-- C10: the per-step exception branch of `execute_macro` is unreachable,
because `execute_command` always returns normally; hence, for every macro in
the static registry, every line of the report carries the success marker `✅ `
— including lines whose dispatcher outcome is itself a failure message, as the
concrete `end_work` run under a failing `taskkill` shows — so the per-step
marker does not distinguish step success from step failure. -/
theorem c10_macro_marker_uniform :
    (∀ (sub : DispatchE) intent params env,
      ∃ out, dispatchCore sub intent params env = Except.ok out) ∧
    (∀ fuel env mName mac, MACRO_REGISTRY.lookup mName = some mac →
      ∀ line ∈ (macroStepLines (fun i p e => executeCommand fuel i p e) env mac.steps).map
          Prod.fst,
        "✅ ".data <+: line.data) ∧
    ((macroStepLines (fun i p e => executeCommand 1 i p e) envKillFail
        ((MACRO_REGISTRY.lookup "end_work").getD ⟨"", []⟩).steps).map Prod.fst =
      ["✅ ❌ Не удалось завершить code.exe: boom", "✅ 🔒 Экран заблокирован."]) := by
  refine ⟨dispatchCore_isOk, ?_, rfl⟩
  intro fuel env mName mac _ line hline
  exact macroStepLines_ok_marker fuel env mac.steps line hline

/-- C10 witness: concrete instantiation of the success-marker property for the
`end_work` macro under the failing environment. -/
theorem c10_witness :
    (MACRO_REGISTRY.lookup "end_work" =
      some ⟨"Закончить рабочий день",
            [⟨"close_app", [("name", PyVal.str "code")]⟩, ⟨"lock", []⟩]⟩) ∧
    ("✅ ".data <+: "✅ ❌ Не удалось завершить code.exe: boom".data) := by
  refine ⟨rfl, ?_⟩
  exact c10_macro_marker_uniform.2.1 1 envKillFail "end_work"
    ⟨"Закончить рабочий день",
     [⟨"close_app", [("name", PyVal.str "code")]⟩, ⟨"lock", []⟩]⟩ rfl
    "✅ ❌ Не удалось завершить code.exe: boom" (List.Mem.head _)

/-- C4: `execute_macro` on a name absent from the registry yields the
not-found outcome; otherwise the report contains exactly one entry per step,
in step order, each entry a function of its own step only (so a failing step
— in particular one whose intent is not in the command registry, which yields
the unrecognized-command failure outcome — leaves every other step's entry
unchanged and skips nothing), and the report is the label header plus the
joined entry lines; no exception escapes (`execute_macro` and every entry it
builds are values of the normal-return branch). -/
theorem c4_report_one_entry_per_step :
    (∀ fuel env mName, MACRO_REGISTRY.lookup mName = none →
      executeMacro fuel mName env = ("❌ Неизвестный макрос: " ++ mName, [])) ∧
    (∀ (dispatch : DispatchE) env steps,
      (macroStepLines dispatch env steps).length = steps.length) ∧
    (∀ (dispatch : DispatchE) env steps (i : Nat),
      (macroStepLines dispatch env steps)[i]? =
        (steps[i]?).map (macroStepLine dispatch env)) ∧
    (∀ fuel env (step : Step), step.intent ∉ registryKeys →
      (macroStepLine (fun i p e => executeCommand fuel i p e) env step).1 =
        "✅ " ++ ("❌ Неизвестная команда: " ++ step.intent)) ∧
    (∀ fuel env mName mac, MACRO_REGISTRY.lookup mName = some mac →
      (executeMacro fuel mName env).1 =
        "🔗 Макрос «" ++ mac.label ++ "»:\n" ++
          String.intercalate "\n"
            (((macroStepLines (fun i p e => executeCommand fuel i p e) env mac.steps).map
                Prod.fst).map (fun r => "  • " ++ r))) := by
  refine ⟨?_, macroStepLines_length, macroStepLines_getElem, ?_, ?_⟩
  · intro fuel env mName h
    unfold executeMacro executeMacroWith
    rw [h]
  · intro fuel env step h
    have hu := executeCommand_unknown fuel step.intent step.params env h
    simp [macroStepLine, hu]
  · intro fuel env mName mac h
    unfold executeMacro executeMacroWith
    rw [h]

/-- C4 witness: the not-found outcome and the per-entry equations at concrete
inputs (absent macro `zzz`; a step with the unregistered intent `frobnicate`). -/
theorem c4_witness :
    (MACRO_REGISTRY.lookup "zzz" = none) ∧
    (executeMacro 1 "zzz" env0 = ("❌ Неизвестный макрос: " ++ "zzz", [])) ∧
    ((macroStepLine (fun i p e => executeCommand 1 i p e) env0 ⟨"frobnicate", []⟩).1 =
      "✅ " ++ ("❌ Неизвестная команда: " ++ "frobnicate")) :=
  ⟨rfl, c4_report_one_entry_per_step.1 1 env0 "zzz" rfl,
   c4_report_one_entry_per_step.2.2.2.1 1 env0 ⟨"frobnicate", []⟩ (by decide)⟩

/-- C9: dispatching `volume_up` with `percent = 10` yields the outcome
`🔊 Громкость +10%.` (which contains `+10%`) and five key presses; omitting
`percent` uses the default 10 with the same outcome; `percent = 0` is floored
to one step and reported as `+2%`; in general the step count is
`max 1 (percent // 2)`, always at least 1, the keys pressed number exactly
that many, and the reported percentage is twice the steps actually pressed. -/
theorem c9_volume_up_outcome :
    (executeCommand 1 "volume_up" [("percent", PyVal.int 10)] env0 =
      .ok ("🔊 Громкость +10%.", List.replicate 5 (.press "volumeup"))) ∧
    ("+10%".data <:+: "🔊 Громкость +10%.".data) ∧
    (executeCommand 1 "volume_up" [] env0 =
      .ok ("🔊 Громкость +10%.", List.replicate 5 (.press "volumeup"))) ∧
    (executeCommand 1 "volume_up" [("percent", PyVal.int 0)] env0 =
      .ok ("🔊 Громкость +2%.", [.press "volumeup"])) ∧
    (∀ (n : Int) (env : Env),
      1 ≤ max 1 (n.fdiv 2) ∧
      cmd_volume_up [("percent", PyVal.int n)] env =
        (List.replicate (max 1 (n.fdiv 2)).toNat (.press "volumeup"),
         .ok ("🔊 Громкость +" ++ toString (max 1 (n.fdiv 2) * 2) ++ "%."))) := by
  refine ⟨rfl, ⟨"🔊 Громкость ".data, ".".data, by decide⟩, rfl, rfl, ?_⟩
  intro n env
  refine ⟨le_max_left 1 _, ?_⟩
  simp [cmd_volume_up, Params.getD, Params.get, List.lookup]
  rfl

/-! ## Claim theorems: confirmation gate -/

/-- C1: a resolved dangerous intent is never executed at resolution time —
`handle_command_voice` emits no executor invocation and only stores the
descriptor as that operator's pending confirmation — and `handle_text` invokes
the executor only on the stored descriptor of the very operator who sent the
message, and only when that message, stripped and lowercased, is in the
affirmative vocabulary. -/
theorem c1_dangerous_gated_until_affirmative (d : IntentData)
    (hd : d.intent ∈ DANGEROUS_INTENTS) :
    (∀ fuel env uid ct st,
      (∀ e ∈ (handleCommandVoice fuel env uid ct (some d) st).2, ¬ e.isExecute) ∧
      (handleCommandVoice fuel env uid ct (some d) st).1 uid = some d) ∧
    (∀ fuel env uid text st i p,
      HEff.execute i p ∈ (handleText fuel env uid text st).2 →
      ∃ d0, st uid = some d0 ∧ i = d0.intent ∧ p = d0.params ∧
        pyLower (pyStrip text) ∈ AFFIRMATIVE) := by
  have hne : ¬ d.intent = "unknown" := by
    simp only [DANGEROUS_INTENTS, List.mem_cons, List.not_mem_nil, or_false] at hd
    rcases hd with h | h | h <;> simp [h]
  constructor
  · intro fuel env uid ct st
    constructor
    · intro e he
      simp only [handleCommandVoice, if_neg hne, if_pos hd, List.mem_cons,
        List.not_mem_nil, or_false] at he
      rcases he with h | h <;> subst h <;> simp [HEff.isExecute]
    · simp [handleCommandVoice, if_neg hne, if_pos hd, setPending]
  · intro fuel env uid text st i p hmem
    cases hst : st uid with
    | none => simp [handleText, hst] at hmem
    | some d0 =>
      by_cases haff : pyLower (pyStrip text) ∈ AFFIRMATIVE
      · refine ⟨d0, rfl, ?_⟩
        cases hec : executeCommand fuel d0.intent d0.params env with
        | ok out =>
          rcases out with ⟨result, effs⟩
          simp only [handleText, hst, haff, if_true, hec, List.mem_cons,
            List.not_mem_nil, or_false] at hmem
          rcases hmem with h | h
          · obtain ⟨h1, h2⟩ := HEff.execute.inj h
            exact ⟨h1, h2, haff⟩
          · exact absurd h (by simp)
        | error e =>
          simp only [handleText, hst, haff, if_true, hec, List.mem_cons,
            List.not_mem_nil, or_false] at hmem
          rcases hmem with h | h
          · obtain ⟨h1, h2⟩ := HEff.execute.inj h
            exact ⟨h1, h2, haff⟩
          · exact absurd h (by simp)
      · simp [handleText, hst, haff] at hmem

/-- C1 witness: `shutdown` is dangerous; resolving it stores it pending for
operator 7 (no execution), and the affirmative reply `Да` of operator 1 is the
situation in which `handle_text` executes the stored descriptor. -/
theorem c1_witness :
    ("shutdown" ∈ DANGEROUS_INTENTS) ∧
    ((handleCommandVoice 1 env0 7 "выключи пк" (some dShut) emptyGate).1 7 = some dShut) ∧
    (∃ d0, gate1 1 = some d0 ∧ "shutdown" = d0.intent ∧
      ([("delay_seconds", PyVal.int 300)] : Params) = d0.params ∧
      pyLower (pyStrip "Да") ∈ AFFIRMATIVE) :=
  ⟨by decide,
   ((c1_dangerous_gated_until_affirmative dShut (by decide)).1 1 env0 7 "выключи пк"
     emptyGate).2,
   (c1_dangerous_gated_until_affirmative dShut (by decide)).2 1 env0 1 "Да" gate1
     "shutdown" [("delay_seconds", PyVal.int 300)] (List.Mem.head _)⟩

/-- C2: when operator `uid` already has descriptor `A` pending and a second
dangerous descriptor `B` is resolved for the same operator, the pending slot
afterwards holds exactly `B`, other operators' slots are untouched, and the
emitted effects are exactly the parsing notice and the confirmation prompt for
`B` — nothing mentions or preserves `A`. -/
theorem c2_second_dangerous_replaces_pending (uid : Int) (A B : IntentData)
    (st : GateState) (_hA : st uid = some A) (hB : B.intent ∈ DANGEROUS_INTENTS)
    (fuel : Nat) (env : Env) (ct : String) :
    ((handleCommandVoice fuel env uid ct (some B) st).1 uid = some B) ∧
    (∀ v, v ≠ uid → (handleCommandVoice fuel env uid ct (some B) st).1 v = st v) ∧
    ((handleCommandVoice fuel env uid ct (some B) st).2 =
      [HEff.editStatus ("🎯 Команда: " ++ ct ++ "\n⏳ Разбираю..."),
       HEff.editStatus (dangerPrompt B)]) := by
  have hne : ¬ B.intent = "unknown" := by
    simp only [DANGEROUS_INTENTS, List.mem_cons, List.not_mem_nil, or_false] at hB
    rcases hB with h | h | h <;> simp [h]
  refine ⟨?_, ?_, ?_⟩
  · simp [handleCommandVoice, if_neg hne, if_pos hB, setPending]
  · intro v hv
    simp [handleCommandVoice, if_neg hne, if_pos hB, setPending, hv]
  · simp [handleCommandVoice, if_neg hne, if_pos hB]

/-- C2 witness: with `dShut` pending for operator 1, resolving the dangerous
`restart` descriptor replaces the slot with `restart` and emits only the
prompt for `restart`. -/
theorem c2_witness :
    (gate1 1 = some dShut) ∧
    ((handleCommandVoice 1 env0 1 "перезагрузи" (some ⟨"restart", []⟩) gate1).1 1 =
      some ⟨"restart", []⟩) :=
  ⟨rfl,
   (c2_second_dangerous_replaces_pending 1 dShut ⟨"restart", []⟩ gate1 rfl (by decide)
     1 env0 "перезагрузи").1⟩

/-- C3 counterexample: the message `" да "` (an affirmative word surrounded by
whitespace) is not — even case-insensitively — equal to any member of the
affirmative vocabulary, so under the claim as stated the pending action would
have to be cancelled with the cancellation message; but `handle_text` strips
the text before comparing, so it dispatches the stored descriptor instead. -/
theorem c3_counterexample :
    (" да " ∉ AFFIRMATIVE) ∧ (pyLower " да " ∉ AFFIRMATIVE) ∧
    ((handleText 1 env0 1 " да " gate1).2 =
      [HEff.execute "shutdown" [("delay_seconds", PyVal.int 300)],
       HEff.answer "✅ ⏻ Выключение через 300 сек."]) ∧
    ((handleText 1 env0 1 " да " gate1).2 ≠ [HEff.answer "❌ Команда отменена."]) := by
  refine ⟨by decide, by decide, rfl, ?_⟩
  intro h
  have hl : [HEff.execute "shutdown" [("delay_seconds", PyVal.int 300)],
       HEff.answer "✅ ⏻ Выключение через 300 сек."] =
      [HEff.answer "❌ Команда отменена."] := by
    calc [HEff.execute "shutdown" [("delay_seconds", PyVal.int 300)],
          HEff.answer "✅ ⏻ Выключение через 300 сек."]
        = (handleText 1 env0 1 " да " gate1).2 := rfl
      _ = [HEff.answer "❌ Команда отменена."] := h
  injection hl with h1 _
  injection h1

/-- C3 (amended): when an operator with a pending confirmation sends a
plain-text message, the pending entry is removed; if the message — stripped of
surrounding whitespace and compared case-insensitively — equals one of the
affirmative vocabulary, the stored descriptor is dispatched with its stored
params; for any other content the action is cancelled with the explicit
cancellation message; and no descriptor other than the stored one is ever
dispatched (the text is not reinterpreted as a new command). -/
theorem c3_strip_lower_confirmation (fuel : Nat) (env : Env) (uid : Int)
    (text : String) (st : GateState) (d : IntentData) (h : st uid = some d) :
    ((handleText fuel env uid text st).1 uid = none) ∧
    (pyLower (pyStrip text) ∈ AFFIRMATIVE →
      (handleText fuel env uid text st).2.head? =
        some (HEff.execute d.intent d.params)) ∧
    (pyLower (pyStrip text) ∉ AFFIRMATIVE →
      (handleText fuel env uid text st).2 = [HEff.answer "❌ Команда отменена."]) ∧
    (∀ i p, HEff.execute i p ∈ (handleText fuel env uid text st).2 →
      i = d.intent ∧ p = d.params) := by
  refine ⟨?_, ?_, ?_, ?_⟩
  · by_cases haff : pyLower (pyStrip text) ∈ AFFIRMATIVE
    · cases hec : executeCommand fuel d.intent d.params env with
      | ok out =>
        rcases out with ⟨result, effs⟩
        simp [handleText, h, haff, hec, removePending]
      | error e => simp [handleText, h, haff, hec, removePending]
    · simp [handleText, h, haff, removePending]
  · intro haff
    cases hec : executeCommand fuel d.intent d.params env with
    | ok out =>
      rcases out with ⟨result, effs⟩
      simp [handleText, h, haff, hec]
    | error e => simp [handleText, h, haff, hec]
  · intro haff
    simp [handleText, h, haff]
  · intro i p hmem
    by_cases haff : pyLower (pyStrip text) ∈ AFFIRMATIVE
    · cases hec : executeCommand fuel d.intent d.params env with
      | ok out =>
        rcases out with ⟨result, effs⟩
        simp only [handleText, h, haff, if_true, hec, List.mem_cons,
          List.not_mem_nil, or_false] at hmem
        rcases hmem with hh | hh
        · exact HEff.execute.inj hh
        · exact absurd hh (by simp)
      | error e =>
        simp only [handleText, h, haff, if_true, hec, List.mem_cons,
          List.not_mem_nil, or_false] at hmem
        rcases hmem with hh | hh
        · exact HEff.execute.inj hh
        · exact absurd hh (by simp)
    · simp [handleText, h, haff] at hmem

/-- C3 witness: operator 1 with `dShut` pending sends `" ДА "`; the pending
entry is removed and the stored shutdown descriptor is dispatched. -/
theorem c3_witness :
    (gate1 1 = some dShut) ∧
    ((handleText 1 env0 1 " ДА " gate1).1 1 = none) ∧
    ((handleText 1 env0 1 " ДА " gate1).2.head? =
      some (HEff.execute "shutdown" [("delay_seconds", PyVal.int 300)])) :=
  ⟨rfl, (c3_strip_lower_confirmation 1 env0 1 " ДА " gate1 dShut rfl).1,
   (c3_strip_lower_confirmation 1 env0 1 " ДА " gate1 dShut rfl).2.1 (by decide)⟩

/-! ## Claim theorems: reminder store and scheduler poll -/

/-- C5: the due-reminder query returns exactly the rows with `fired = false`
and `remind_at <= now` (a row with `remind_at > now` never appears), sorted by
`remind_at` ascending, so of two due reminders the earlier one precedes the
later one in the result. -/
theorem c5_due_query_filter_sorted (now : String) (tbl : List Reminder) :
    ((get_pending_reminders now tbl).Sorted remindLe) ∧
    (∀ r, r ∈ get_pending_reminders now tbl ↔
      r ∈ tbl ∧ r.fired = false ∧ tsLe r.remind_at now = true) ∧
    (∀ r ∈ tbl, tsLe r.remind_at now = false → r ∉ get_pending_reminders now tbl) ∧
    (∀ (i j : Fin (get_pending_reminders now tbl).length), i < j →
      remindLe ((get_pending_reminders now tbl).get i)
        ((get_pending_reminders now tbl).get j)) := by
  have hsorted : (get_pending_reminders now tbl).Sorted remindLe :=
    List.sorted_insertionSort remindLe _
  have hmem : ∀ r, r ∈ get_pending_reminders now tbl ↔
      r ∈ tbl ∧ r.fired = false ∧ tsLe r.remind_at now = true := by
    intro r
    unfold get_pending_reminders
    rw [List.mem_insertionSort, List.mem_filter]
    simp [Bool.and_eq_true]
  refine ⟨hsorted, hmem, ?_, ?_⟩
  · intro r _ hf hr
    have := ((hmem r).mp hr).2.2
    rw [hf] at this
    exact Bool.false_ne_true this
  · intro i j hij
    exact hsorted.rel_get_of_lt hij

/-- C5 witness: a concrete four-row table; the query keeps exactly the two
unfired due rows and orders them by time. -/
theorem c5_witness :
    (get_pending_reminders "2026-10-12T12:00:00"
        [⟨1, 7, "tea", "2026-10-12T10:00:00", "c1", false⟩,
         ⟨2, 7, "call", "2026-10-12T09:00:00", "c2", false⟩,
         ⟨3, 7, "later", "2026-10-12T23:00:00", "c3", false⟩,
         ⟨4, 7, "done", "2026-10-12T08:00:00", "c4", true⟩]).Sorted remindLe ∧
    ((⟨3, 7, "later", "2026-10-12T23:00:00", "c3", false⟩ : Reminder) ∈
        [⟨1, 7, "tea", "2026-10-12T10:00:00", "c1", false⟩,
         ⟨2, 7, "call", "2026-10-12T09:00:00", "c2", false⟩,
         ⟨3, 7, "later", "2026-10-12T23:00:00", "c3", false⟩,
         ⟨4, 7, "done", "2026-10-12T08:00:00", "c4", true⟩] ∧
      tsLe "2026-10-12T23:00:00" "2026-10-12T12:00:00" = false ∧
      (⟨3, 7, "later", "2026-10-12T23:00:00", "c3", false⟩ : Reminder) ∉
        get_pending_reminders "2026-10-12T12:00:00"
          [⟨1, 7, "tea", "2026-10-12T10:00:00", "c1", false⟩,
           ⟨2, 7, "call", "2026-10-12T09:00:00", "c2", false⟩,
           ⟨3, 7, "later", "2026-10-12T23:00:00", "c3", false⟩,
           ⟨4, 7, "done", "2026-10-12T08:00:00", "c4", true⟩]) :=
  ⟨(c5_due_query_filter_sorted "2026-10-12T12:00:00" _).1,
   by decide,
   by decide,
   (c5_due_query_filter_sorted "2026-10-12T12:00:00" _).2.2.1 _ (by decide) (by decide)⟩

/-- C6: after `mark_reminder_fired rid`, no row with id `rid` ever appears in
a due-check result again; a row with `fired = true` never appears in any
due-check result; the update flips `fired` from false to true exactly on the
matching id and never resets it (new flag = old flag OR id-match); all other
fields and row order are untouched (ids stable per position). -/
theorem c6_fired_monotone_no_redelivery (tbl : List Reminder) (rid : Nat)
    (now2 : String) :
    (∀ r ∈ get_pending_reminders now2 (mark_reminder_fired rid tbl), r.id ≠ rid) ∧
    (∀ r ∈ get_pending_reminders now2 tbl, r.fired = false) ∧
    (∀ i : Nat, ((mark_reminder_fired rid tbl)[i]?).map Reminder.fired =
      (tbl[i]?).map (fun r => r.fired || decide (r.id = rid))) ∧
    (∀ i : Nat, ((mark_reminder_fired rid tbl)[i]?).map Reminder.id =
      (tbl[i]?).map Reminder.id) := by
  refine ⟨?_, ?_, ?_, ?_⟩
  · intro r hr hrid
    have hmem : r ∈ mark_reminder_fired rid tbl ∧
        (!r.fired && tsLe r.remind_at now2) = true := by
      have h1 := hr
      unfold get_pending_reminders at h1
      rw [List.mem_insertionSort, List.mem_filter] at h1
      exact h1
    obtain ⟨r0, _, hr0⟩ := List.mem_map.mp hmem.1
    have hfired : r.fired = false := by
      have h2 := hmem.2
      simp only [Bool.and_eq_true, Bool.not_eq_true'] at h2
      exact h2.1
    by_cases h0 : r0.id = rid
    · rw [if_pos h0] at hr0
      rw [← hr0] at hfired
      simp [setFired] at hfired
    · rw [if_neg h0] at hr0
      rw [← hr0] at hrid
      exact h0 hrid
  · intro r hr
    unfold get_pending_reminders at hr
    rw [List.mem_insertionSort, List.mem_filter] at hr
    have h2 := hr.2
    simp only [Bool.and_eq_true, Bool.not_eq_true'] at h2
    exact h2.1
  · intro i
    unfold mark_reminder_fired
    rw [List.getElem?_map]
    cases tbl[i]? with
    | none => rfl
    | some r =>
      by_cases h0 : r.id = rid <;> simp [h0, setFired]
  · intro i
    unfold mark_reminder_fired
    rw [List.getElem?_map]
    cases tbl[i]? with
    | none => rfl
    | some r =>
      by_cases h0 : r.id = rid <;> simp [h0, setFired]

/-- C6 witness: after marking reminder 2 fired in a concrete table, the next
due-check no longer returns it, and position 1 keeps id 2 with flag true. -/
theorem c6_witness :
    (∀ r ∈ get_pending_reminders "2026-10-12T12:00:00"
        (mark_reminder_fired 2
          [⟨1, 7, "tea", "2026-10-12T10:00:00", "c1", false⟩,
           ⟨2, 7, "call", "2026-10-12T09:00:00", "c2", false⟩]), r.id ≠ 2) ∧
    (((mark_reminder_fired 2
        [⟨1, 7, "tea", "2026-10-12T10:00:00", "c1", false⟩,
         ⟨2, 7, "call", "2026-10-12T09:00:00", "c2", false⟩])[1]?).map Reminder.fired =
      some true) :=
  ⟨(c6_fired_monotone_no_redelivery _ 2 "2026-10-12T12:00:00").1,
   by
    have h := (c6_fired_monotone_no_redelivery
      [⟨1, 7, "tea", "2026-10-12T10:00:00", "c1", false⟩,
       ⟨2, 7, "call", "2026-10-12T09:00:00", "c2", false⟩] 2 "2026-10-12T12:00:00").2.2.1 1
    rw [h]
    decide⟩

/-- The row update a poll applies, given the fetched pending list: a row is
marked fired exactly when some fetched due reminder with its id was delivered
successfully. -/
def markIf (env : Env) (pending : List Reminder) (row : Reminder) : Reminder :=
  if ∃ r ∈ pending, env.sendError r.user_id (reminderMessage r.text) = none ∧ r.id = row.id
  then setFired row else row

theorem mem_get_pending_reminders {now : String} {tbl : List Reminder} {r : Reminder} :
    r ∈ get_pending_reminders now tbl ↔
      r ∈ tbl ∧ r.fired = false ∧ tsLe r.remind_at now = true := by
  unfold get_pending_reminders
  rw [List.mem_insertionSort, List.mem_filter]
  simp [Bool.and_eq_true, Bool.not_eq_true']

theorem processReminders_effects (env : Env) (hbot : env.botPresent = true) :
    ∀ pending tbl : List Reminder,
      (processReminders env pending tbl).2 = pending.map (attemptEff env) := by
  intro pending
  induction pending with
  | nil => intro tbl; rfl
  | cons r rest ih =>
    intro tbl
    cases hs : env.sendError r.user_id (reminderMessage r.text) with
    | none => simp [processReminders, processReminder, hbot, hs, attemptEff, ih]
    | some e => simp [processReminders, processReminder, hbot, hs, attemptEff, ih]

theorem processReminders_table (env : Env) (hbot : env.botPresent = true) :
    ∀ pending tbl : List Reminder,
      (processReminders env pending tbl).1 = tbl.map (markIf env pending) := by
  intro pending
  induction pending with
  | nil =>
    intro tbl
    simp only [processReminders]
    have : ∀ row ∈ tbl, markIf env [] row = row := by
      intro row _
      unfold markIf
      rw [if_neg]
      rintro ⟨x, hx, _⟩
      exact List.not_mem_nil x hx
    rw [List.map_congr_left this]
    simp
  | cons r rest ih =>
    intro tbl
    cases hs : env.sendError r.user_id (reminderMessage r.text) with
    | none =>
      have hstep : (processReminders env (r :: rest) tbl).1 =
          (mark_reminder_fired r.id tbl).map (markIf env rest) := by
        simp [processReminders, processReminder, hbot, hs, ih]
      rw [hstep]
      unfold mark_reminder_fired
      rw [List.map_map]
      apply List.map_congr_left
      intro row _
      show markIf env rest (if row.id = r.id then setFired row else row) =
        markIf env (r :: rest) row
      by_cases h0 : row.id = r.id
      · rw [if_pos h0]
        have hcondR : ∃ x ∈ r :: rest,
            env.sendError x.user_id (reminderMessage x.text) = none ∧ x.id = row.id :=
          ⟨r, List.mem_cons_self r rest, hs, h0.symm⟩
        have hR : markIf env (r :: rest) row = setFired row := by
          unfold markIf; rw [if_pos hcondR]
        have hL : markIf env rest (setFired row) = setFired row := by
          unfold markIf; split_ifs <;> rfl
        rw [hL, hR]
      · rw [if_neg h0]
        unfold markIf
        have hiff : (∃ x ∈ rest,
              env.sendError x.user_id (reminderMessage x.text) = none ∧ x.id = row.id) ↔
            (∃ x ∈ r :: rest,
              env.sendError x.user_id (reminderMessage x.text) = none ∧ x.id = row.id) := by
          constructor
          · rintro ⟨x, hx, hxs, hxid⟩
            exact ⟨x, List.mem_cons_of_mem r hx, hxs, hxid⟩
          · rintro ⟨x, hx, hxs, hxid⟩
            rcases List.mem_cons.mp hx with hx1 | hx2
            · subst hx1
              exact absurd hxid.symm h0
            · exact ⟨x, hx2, hxs, hxid⟩
        rw [if_congr hiff rfl rfl]
    | some e =>
      have hstep : (processReminders env (r :: rest) tbl).1 =
          (processReminders env rest tbl).1 := by
        simp [processReminders, processReminder, hbot, hs]
      rw [hstep, ih]
      apply List.map_congr_left
      intro row _
      unfold markIf
      have hiff : (∃ x ∈ rest,
            env.sendError x.user_id (reminderMessage x.text) = none ∧ x.id = row.id) ↔
          (∃ x ∈ r :: rest,
            env.sendError x.user_id (reminderMessage x.text) = none ∧ x.id = row.id) := by
        constructor
        · rintro ⟨x, hx, hxs, hxid⟩
          exact ⟨x, List.mem_cons_of_mem r hx, hxs, hxid⟩
        · rintro ⟨x, hx, hxs, hxid⟩
          rcases List.mem_cons.mp hx with hx1 | hx2
          · subst hx1
            rw [hs] at hxs
            exact absurd hxs (by simp)
          · exact ⟨x, hx2, hxs, hxid⟩
      rw [if_congr hiff rfl rfl]

/-- C7: in one poll with the bot set, every due reminder gets exactly one
delivery attempt, in due order (the effect list is the pointwise image of the
fetched due list, so one reminder's failure never prevents the others); a row
is marked fired exactly when a successful delivery for its id happened; and a
due reminder whose delivery raised is left unchanged (fired still false) and
is fetched again by the next poll. -/
theorem c7_poll_attempts_and_marks (env : Env) (now : String) (tbl : List Reminder)
    (hbot : env.botPresent = true) (hids : (tbl.map Reminder.id).Nodup) :
    ((check_reminders env now tbl).2 =
      (get_pending_reminders now tbl).map (attemptEff env)) ∧
    ((check_reminders env now tbl).1 =
      tbl.map (markIf env (get_pending_reminders now tbl))) ∧
    (∀ r ∈ get_pending_reminders now tbl, ∀ e,
      env.sendError r.user_id (reminderMessage r.text) = some e →
        r ∈ get_pending_reminders now (check_reminders env now tbl).1) := by
  refine ⟨processReminders_effects env hbot _ _, processReminders_table env hbot _ _, ?_⟩
  intro r hr e he
  have hrtbl := (mem_get_pending_reminders.mp hr).1
  have hfired := (mem_get_pending_reminders.mp hr).2.1
  have hdue := (mem_get_pending_reminders.mp hr).2.2
  have hkeep : markIf env (get_pending_reminders now tbl) r = r := by
    unfold markIf
    rw [if_neg]
    rintro ⟨x, hx, hxs, hxid⟩
    have hxtbl := (mem_get_pending_reminders.mp hx).1
    have hxr : x = r :=
      List.inj_on_of_nodup_map hids hxtbl hrtbl hxid
    rw [hxr, he] at hxs
    exact absurd hxs (by simp)
  rw [mem_get_pending_reminders]
  unfold check_reminders
  rw [processReminders_table env hbot]
  exact ⟨List.mem_map.mpr ⟨r, hrtbl, hkeep⟩, hfired, hdue⟩

/-- An environment whose notification channel fails for user 9. -/
def envSendFail : Env := ⟨fun _ => 0, fun _ => "", fun _ => none, fun _ => none,
  none, fun _ => none, true, fun u _ => if u = 9 then some "timeout" else none⟩

/-- C7 witness: users 7 and 9 each have a due reminder; user 9's delivery
raises, the attempt for user 7 is still made and marked, and user 9's reminder
is due again on the next poll. -/
theorem c7_witness :
    ((check_reminders envSendFail "2026-10-12T12:00:00"
        [⟨1, 9, "a", "2026-10-12T09:00:00", "c1", false⟩,
         ⟨2, 7, "b", "2026-10-12T10:00:00", "c2", false⟩]).2 =
      [.sendFailed 9 (reminderMessage "a") "timeout", .sent 7 (reminderMessage "b")]) ∧
    ((⟨1, 9, "a", "2026-10-12T09:00:00", "c1", false⟩ : Reminder) ∈
      get_pending_reminders "2026-10-12T12:00:00"
        (check_reminders envSendFail "2026-10-12T12:00:00"
          [⟨1, 9, "a", "2026-10-12T09:00:00", "c1", false⟩,
           ⟨2, 7, "b", "2026-10-12T10:00:00", "c2", false⟩]).1) := by
  constructor
  · have h := (c7_poll_attempts_and_marks envSendFail "2026-10-12T12:00:00"
      [⟨1, 9, "a", "2026-10-12T09:00:00", "c1", false⟩,
       ⟨2, 7, "b", "2026-10-12T10:00:00", "c2", false⟩] rfl (by decide)).1
    rw [h]; rfl
  · exact (c7_poll_attempts_and_marks envSendFail "2026-10-12T12:00:00"
      [⟨1, 9, "a", "2026-10-12T09:00:00", "c1", false⟩,
       ⟨2, 7, "b", "2026-10-12T10:00:00", "c2", false⟩] rfl (by decide)).2.2
      ⟨1, 9, "a", "2026-10-12T09:00:00", "c1", false⟩ (by decide) "timeout" rfl
